import Mathlib

/-!
# Deadline Guardian — shallow embedding of the risk-propagation core

This file embeds the core logic of `app.py` (the deadline-guardian agent):

* `calculate_risk_level` — intrinsic risk classification of one task from its
  deadline string and status (`RiskClassifier` in the specification);
* `build_dependency_graph` — reverse-dependency graph plus status/risk maps;
* `analyze_cascading_risks` — blocked-task and bottleneck detection;
* the effective-risk override loop of the `/handle` request handler
  (`handle_tasks` below).

Modelling conventions:

* the current instant (`datetime.now()`) is an explicit parameter `now`,
  measured in seconds on the same axis as parsed deadlines (a parsed deadline
  `YYYY-MM-DD` denotes civil day number `d` counted from 1970-01-01, i.e.
  second `d * 86400`, midnight of that date);
* Python dicts keyed by `task_id` become ordered association lists with keys
  of type `Option String` (a task with no `task_id` field yields the key
  `none`, exactly as `task.get('task_id')` yields `None`);
* the `depends_on` field may be absent (`none`), a string, or a list of
  strings (`DepVal`); Python truthiness of the field is modelled explicitly;
* a non-empty list-valued `depends_on` makes the Python code evaluate
  `dep_id in graph` / `risk_map.get(dep_id)` with the *list itself* as the
  key, which raises `TypeError: unhashable type: 'list'` — embedded as
  `Except.error PyErr.typeError`;
* the Python `set` of blocked ids is embedded as a duplicate-free list in
  first-insertion order; every statement about it is a membership statement,
  so the unspecified iteration order of `list(set)` is irrelevant;
* Python string primitives (`split`, `strip`, `lower`) are re-implemented by
  structural recursion on the character list so that every definition is
  kernel-executable on concrete inputs.
-/

set_option synthInstance.maxSize 2000

namespace Guardian

/-- `s.split(sep)` on a character list: always at least one (possibly empty)
group, a fresh group after every separator. -/
def splitOnChar (c : Char) : List Char → List (List Char)
  | [] => [[]]
  | x :: xs =>
      match splitOnChar c xs with
      | [] => [[x]]
      | g :: gs => if x = c then [] :: g :: gs else (x :: g) :: gs

/-- ASCII whitespace stripped by Python's `str.strip()`. -/
def isPySpace (c : Char) : Bool :=
  c = ' ' || c = '\t' || c = '\n' || c = '\r' || c = '\x0b' || c = '\x0c'

/-- `s.strip()` on a character list. -/
def stripChars (l : List Char) : List Char :=
  ((l.dropWhile isPySpace).reverse.dropWhile isPySpace).reverse

/-- `s.split(sep)` returning strings. -/
def pySplit (sep : Char) (s : String) : List String :=
  (splitOnChar sep s.data).map fun l => ⟨l⟩

/-- `s.strip()`. -/
def pyStrip (s : String) : String :=
  ⟨stripChars s.data⟩

/-- `s.lower()` (ASCII letters; the done-synonym comparison only ever
involves ASCII). -/
def pyLower (s : String) : String :=
  ⟨s.data.map Char.toLower⟩

/-- The risk tiers of the agent (`RiskTier` in the specification).
`BLOCKED` is only ever produced by the override in the request handler,
never by `calculate_risk_level`. -/
inductive Risk where
  | COMPLETED
  | CRITICAL
  | HIGH
  | MEDIUM
  | LOW
  | UNKNOWN
  | BLOCKED
deriving DecidableEq, Repr

/-- The value of a present `depends_on` field: a Python string or a Python
list of strings. -/
inductive DepVal where
  | str : String → DepVal
  | list : List String → DepVal
deriving DecidableEq, Repr

/-- A task document as consumed by the agent.  A `none` field models a key
absent from the Python dict (`task.get(...)` returns `None`/the default). -/
structure Task where
  task_id : Option String := none
  task_status : Option String := none
  task_deadline : Option String := none
  depends_on : Option DepVal := none
deriving DecidableEq, Repr

/-- A Python-level error surfaced by the embedded code. -/
inductive PyErr where
  | typeError
deriving DecidableEq, Repr

/-- Equality of embedded results is decidable, so concrete runs can be
checked by `decide`. -/
instance {ε α : Type} [DecidableEq ε] [DecidableEq α] :
    DecidableEq (Except ε α)
  | .ok a, .ok b =>
      if h : a = b then .isTrue (by rw [h])
      else .isFalse (by intro hh; cases hh; exact h rfl)
  | .ok _, .error _ => .isFalse (by intro h; cases h)
  | .error _, .ok _ => .isFalse (by intro h; cases h)
  | .error a, .error b =>
      if h : a = b then .isTrue (by rw [h])
      else .isFalse (by intro hh; cases hh; exact h rfl)

/-- Dict keys: `task_id` values, possibly `None`. -/
abbrev Key := Option String

/-- `m.get(k)` lookup on an ordered association list (keys are unique in
every dict this file builds). -/
def dictGet? {V : Type} : List (Key × V) → Key → Option V
  | [], _ => none
  | (k, v) :: rest, key => if k = key then some v else dictGet? rest key

/-- `k in m` on a dict. -/
def dictContains {V : Type} (m : List (Key × V)) (k : Key) : Bool :=
  (dictGet? m k).isSome

/-- `m[k] = v`: replace the value at an existing key in place, else append
the new binding — Python dict assignment preserves insertion order. -/
def dictSet {V : Type} : List (Key × V) → Key → V → List (Key × V)
  | [], key, v => [(key, v)]
  | (k, w) :: rest, key, v =>
      if k = key then (k, v) :: rest else (k, w) :: dictSet rest key v

/-- In-place update of the value at a key (used for `graph[dep_id].append`,
which the source only performs under a `dep_id in graph` guard). -/
def dictModify {V : Type} : List (Key × V) → Key → (V → V) → List (Key × V)
  | [], _, _ => []
  | (k, w) :: rest, key, f =>
      if k = key then (k, f w) :: rest else (k, w) :: dictModify rest key f

/-- A non-empty group of ASCII digits, as matched by the `%Y`/`%m`/`%d`
directives of `strptime`. -/
def allDigits (l : List Char) : Bool :=
  decide (l.length ≥ 1) && l.all (·.isDigit)

/-- Numeric value of a digit group. -/
def digitsToNat (l : List Char) : Nat :=
  l.foldl (fun a c => a * 10 + (c.toNat - 48)) 0

/-- Gregorian leap-year test, as in Python's `datetime`. -/
def isLeap (y : Nat) : Bool :=
  (y % 4 = 0 && y % 100 ≠ 0) || y % 400 = 0

/-- Days in a month of the proleptic Gregorian calendar. -/
def daysInMonth (y m : Nat) : Nat :=
  if m = 2 then (if isLeap y then 29 else 28)
  else if m = 4 ∨ m = 6 ∨ m = 9 ∨ m = 11 then 30
  else 31

/-- Civil date to day count since 1970-01-01 (valid for year ≥ 1). -/
def civilToDays (y m d : Nat) : Int :=
  let yy := if m ≤ 2 then y - 1 else y
  let era := yy / 400
  let yoe := yy % 400
  let mp := (m + 9) % 12
  let doy := (153 * mp + 2) / 5 + d - 1
  let doe := yoe * 365 + yoe / 4 - yoe / 100 + doy
  (era : Int) * 146097 + (doe : Int) - 719468

/-- `datetime.strptime(s, "%Y-%m-%d")`: the whole string must be consumed;
`%Y` takes exactly four digits, `%m` and `%d` one or two; the triple must
be a valid calendar date with year at least 1 (`datetime.MINYEAR`).  Returns
the date's civil day number. -/
def parseDate (s : String) : Option Int :=
  match splitOnChar '-' s.data with
  | [ys, ms, ds] =>
      if allDigits ys && decide (ys.length = 4) &&
         allDigits ms && decide (ms.length ≤ 2) &&
         allDigits ds && decide (ds.length ≤ 2) then
        let y := digitsToNat ys
        let m := digitsToNat ms
        let d := digitsToNat ds
        if 1 ≤ y ∧ 1 ≤ m ∧ m ≤ 12 ∧ 1 ≤ d ∧ d ≤ daysInMonth y m then
          some (civilToDays y m d)
        else none
      else none
  | _ => none

/-- `status.lower() in ["done", "completed"]`. -/
def isDoneStatus (status : String) : Bool :=
  pyLower status = "done" || pyLower status = "completed"

/-- `calculate_risk_level(deadline_str, status)` of `app.py`, with the
current instant `now` (seconds) made explicit.  `(deadline - now).days` in
Python floors the duration toward negative infinity, hence `Int.fdiv`. -/
def calculate_risk_level (now : Int) (deadline_str status : String) :
    Risk × Int :=
  if isDoneStatus status then (.COMPLETED, 0)
  else
    match parseDate deadline_str with
    | none => (.UNKNOWN, 0)
    | some d =>
        let days_remaining := Int.fdiv (d * 86400 - now) 86400
        if days_remaining < 0 then (.CRITICAL, days_remaining)
        else if days_remaining < 1 then (.HIGH, days_remaining)
        else if days_remaining < 3 then (.MEDIUM, days_remaining)
        else (.LOW, days_remaining)

/-- Reverse-dependency graph: task id ↦ ids of the tasks that directly
depend on it. -/
abbrev Graph := List (Key × List Key)

/-- task id ↦ raw status string. -/
abbrev StatusMap := List (Key × String)

/-- task id ↦ intrinsic risk tier. -/
abbrev RiskMap := List (Key × Risk)

/-- One iteration of the initialisation loop of `build_dependency_graph`:
`graph[t_id] = []`, `status_map[t_id] = task.get('task_status', 'todo')`,
`risk_map[t_id] = calculate_risk_level(...)`. -/
def initStep (now : Int) (acc : Graph × StatusMap × RiskMap) (task : Task) :
    Graph × StatusMap × RiskMap :=
  let t_id := task.task_id
  (dictSet acc.1 t_id [],
   dictSet acc.2.1 t_id (task.task_status.getD "todo"),
   dictSet acc.2.2 t_id
     (calculate_risk_level now (task.task_deadline.getD "")
       (task.task_status.getD "")).1)

/-- The initialisation loop of `build_dependency_graph`. -/
def initMaps (now : Int) (tasks : List Task) : Graph × StatusMap × RiskMap :=
  tasks.foldl (initStep now) ([], [], [])

/-- `[d.strip() for d in depends_on.split(',')]`. -/
def depsOfStr (s : String) : List String :=
  (pySplit ',' s).map pyStrip

/-- The inner loop `for dep_id in deps: if dep_id in graph:
graph[dep_id].append(t_id)`. -/
def addEdges (g : Graph) (t_id : Key) (deps : List String) : Graph :=
  deps.foldl
    (fun g dep_id =>
      if dictContains g (some dep_id) then
        dictModify g (some dep_id) (fun l => l ++ [t_id])
      else g)
    g

/-- The dependency-population loop of `build_dependency_graph`.  The guard
`if depends_on:` skips an absent field, the empty string and the empty list
(Python falsiness).  A truthy string contributes its comma-split, stripped
ids; a truthy *list* makes the source iterate over `[depends_on]`, so the
membership test `dep_id in graph` hashes the list itself and raises
`TypeError`. -/
def populate (g : Graph) : List Task → Except PyErr Graph
  | [] => .ok g
  | task :: rest =>
      match task.depends_on with
      | none => populate g rest
      | some (.str s) =>
          if s = "" then populate g rest
          else populate (addEdges g task.task_id (depsOfStr s)) rest
      | some (.list l) =>
          if l = [] then populate g rest
          else .error .typeError

/-- `build_dependency_graph(tasks)` of `app.py`. -/
def build_dependency_graph (now : Int) (tasks : List Task) :
    Except PyErr (Graph × StatusMap × RiskMap) :=
  let (g, status_map, risk_map) := initMaps now tasks
  (populate g tasks).map fun g => (g, status_map, risk_map)

/-- `risk_map.get(dep_id) in ["CRITICAL", "HIGH"]` (a missing key yields
`None`, which is in neither). -/
def qualifies (risk_map : RiskMap) (dep_id : String) : Bool :=
  match dictGet? risk_map (some dep_id) with
  | some .CRITICAL => true
  | some .HIGH => true
  | _ => false

/-- `blocked_tasks.add(t_id)` on the insertion-ordered embedding of the
Python set. -/
def addBlocked (acc : List Key) (k : Key) : List Key :=
  if k ∈ acc then acc else acc ++ [k]

/-- The inner loop of the blocked-task pass: for each declared dependency id,
add the dependent task to the blocked set when the dependency's intrinsic
risk is CRITICAL or HIGH. -/
def blockedFold (risk_map : RiskMap) (acc : List Key) (t_id : Key) :
    List String → List Key
  | [] => acc
  | dep_id :: rest =>
      blockedFold risk_map
        (if qualifies risk_map dep_id then addBlocked acc t_id else acc)
        t_id rest

/-- The blocked-task pass of `analyze_cascading_risks`, with the same
truthiness guard as `populate`.  A truthy list-valued `depends_on` reaches
`risk_map.get(dep_id)` with the list itself as key and raises `TypeError`. -/
def computeBlocked (risk_map : RiskMap) : List Task → List Key →
    Except PyErr (List Key)
  | [], acc => .ok acc
  | task :: rest, acc =>
      match task.depends_on with
      | none => computeBlocked risk_map rest acc
      | some (.str s) =>
          if s = "" then computeBlocked risk_map rest acc
          else
            computeBlocked risk_map rest
              (blockedFold risk_map acc task.task_id (depsOfStr s))
      | some (.list l) =>
          if l = [] then computeBlocked risk_map rest acc
          else .error .typeError

/-- The bottleneck pass: every graph key whose dependent-list is longer than
one, in graph (insertion) order. -/
def bottlenecksOf (g : Graph) : List Key :=
  (g.filter fun e => e.2.length > 1).map fun e => e.1

/-- `analyze_cascading_risks(tasks)` of `app.py`; a `TypeError` raised in
either pass propagates to the caller. -/
def analyze_cascading_risks (now : Int) (tasks : List Task) :
    Except PyErr (List Key × List Key) :=
  match build_dependency_graph now tasks with
  | .error e => .error e
  | .ok (graph, _, risk_map) =>
      match computeBlocked risk_map tasks [] with
      | .error e => .error e
      | .ok blocked => .ok (blocked, bottlenecksOf graph)

/-- One per-task record of the deterministic part of the `/handle` response
(`analyzed_tasks` in the source; the report-only fields `name`, `deadline`
and `time_text` are omitted). -/
structure AnalyzedTask where
  id : Key
  risk : Risk
  days_remaining : Int
  is_bottleneck : Bool
deriving DecidableEq, Repr

/-- The deterministic analysis loop of `handle_request`: run the cascade
analysis, then give each task its effective tier — the intrinsic tier,
overridden to `BLOCKED` when the task is in the blocked set and the
intrinsic tier is not in `["CRITICAL", "COMPLETED"]`. -/
def handle_tasks (now : Int) (tasks : List Task) :
    Except PyErr (List AnalyzedTask) :=
  match analyze_cascading_risks now tasks with
  | .error e => .error e
  | .ok (blocked_tasks, bottlenecks) =>
      .ok <| tasks.map fun task =>
        let (risk, days) :=
          calculate_risk_level now (task.task_deadline.getD "")
            (task.task_status.getD "")
        let risk :=
          if task.task_id ∈ blocked_tasks ∧
              ¬(risk = .CRITICAL ∨ risk = .COMPLETED)
          then .BLOCKED else risk
        { id := task.task_id
          risk := risk
          days_remaining := days
          is_bottleneck := task.task_id ∈ bottlenecks }

/-! ## Dictionary lemmas -/

/-- The key list of a dict. -/
def dictKeys {V : Type} (m : List (Key × V)) : List Key :=
  m.map Prod.fst

theorem dictKeys_nil {V : Type} : dictKeys ([] : List (Key × V)) = [] := rfl

theorem dictKeys_cons {V : Type} (e : Key × V) (m : List (Key × V)) :
    dictKeys (e :: m) = e.1 :: dictKeys m := rfl

theorem dictGet?_dictSet {V : Type} (m : List (Key × V)) (k k' : Key) (v : V) :
    dictGet? (dictSet m k v) k' = if k = k' then some v else dictGet? m k' := by
  induction m with
  | nil => simp [dictSet, dictGet?]
  | cons e rest ih =>
      obtain ⟨ke, ve⟩ := e
      by_cases hk : ke = k
      · subst hk
        by_cases hk' : ke = k' <;> simp [dictSet, dictGet?, hk']
      · have hne : ¬(k = ke) := fun h => hk h.symm
        by_cases hk' : ke = k'
        · subst hk'
          simp [dictSet, dictGet?, hk, hne]
        · simp [dictSet, dictGet?, hk, hk', ih]

theorem dictGet?_dictModify {V : Type} (m : List (Key × V)) (k k' : Key)
    (f : V → V) :
    dictGet? (dictModify m k f) k'
      = if k = k' then (dictGet? m k).map f else dictGet? m k' := by
  induction m with
  | nil => simp [dictModify, dictGet?]
  | cons e rest ih =>
      obtain ⟨ke, ve⟩ := e
      by_cases hk : ke = k
      · subst hk
        by_cases hk' : ke = k' <;> simp [dictModify, dictGet?, hk']
      · have hne : ¬(k = ke) := fun h => hk h.symm
        by_cases hk' : ke = k'
        · subst hk'
          simp [dictModify, dictGet?, hk, hne]
        · simp [dictModify, dictGet?, hk, hk', ih]

theorem dictKeys_dictModify {V : Type} (m : List (Key × V)) (k : Key)
    (f : V → V) : dictKeys (dictModify m k f) = dictKeys m := by
  induction m with
  | nil => rfl
  | cons e rest ih =>
      obtain ⟨ke, ve⟩ := e
      by_cases hk : ke = k <;> simp_all [dictModify, dictKeys_cons]

theorem dictKeys_dictSet {V : Type} (m : List (Key × V)) (k : Key) (v : V) :
    dictKeys (dictSet m k v)
      = if k ∈ dictKeys m then dictKeys m else dictKeys m ++ [k] := by
  induction m with
  | nil => simp [dictSet, dictKeys]
  | cons e rest ih =>
      obtain ⟨ke, ve⟩ := e
      by_cases hk : ke = k
      · subst hk
        simp [dictSet, dictKeys_cons]
      · have hne : ¬(k = ke) := fun h => hk h.symm
        simp only [dictSet, if_neg hk, dictKeys_cons, ih, List.mem_cons, hne,
          false_or]
        by_cases hmem : k ∈ dictKeys rest <;> simp [hmem]

theorem nodup_dictKeys_dictSet {V : Type} {m : List (Key × V)} (k : Key)
    (v : V) (h : (dictKeys m).Nodup) : (dictKeys (dictSet m k v)).Nodup := by
  rw [dictKeys_dictSet]
  by_cases hmem : k ∈ dictKeys m
  · simpa [hmem]
  · rw [if_neg hmem]
    refine List.Nodup.append h (List.nodup_singleton k) ?_
    intro a ha hak
    rw [List.mem_singleton] at hak
    exact hmem (hak ▸ ha)

theorem dictGet?_eq_some_of_mem {V : Type} {m : List (Key × V)} {k : Key}
    {v : V} (hnd : (dictKeys m).Nodup) (hm : (k, v) ∈ m) :
    dictGet? m k = some v := by
  induction m with
  | nil => cases hm
  | cons e rest ih =>
      obtain ⟨ke, ve⟩ := e
      rw [dictKeys_cons, List.nodup_cons] at hnd
      rcases List.mem_cons.mp hm with h | h
      · cases h; simp [dictGet?]
      · have hne : ke ≠ k := by
          rintro rfl
          exact hnd.1 (by simpa [dictKeys] using List.mem_map_of_mem Prod.fst h)
        simpa [dictGet?, hne] using ih hnd.2 h

theorem mem_of_dictGet?_eq_some {V : Type} {m : List (Key × V)} {k : Key}
    {v : V} (h : dictGet? m k = some v) : (k, v) ∈ m := by
  induction m with
  | nil => simp [dictGet?] at h
  | cons e rest ih =>
      obtain ⟨ke, ve⟩ := e
      by_cases hk : ke = k
      · subst hk
        simp [dictGet?] at h
        simp [h]
      · simp only [dictGet?, if_neg hk] at h
        exact List.mem_cons_of_mem _ (ih h)

/-! ## Classifier lemmas -/

/-- The classifier itself never produces the `BLOCKED` tier: `BLOCKED` is
purely a downstream override. -/
theorem calculate_risk_level_ne_BLOCKED (now : Int) (dl st : String) :
    (calculate_risk_level now dl st).1 ≠ .BLOCKED := by
  simp only [calculate_risk_level]
  split
  · simp
  · split
    · simp
    · split
      · simp
      · split
        · simp
        · split <;> simp

/-! ## Graph-construction lemmas -/

theorem fst_initStep (now : Int) (acc : Graph × StatusMap × RiskMap)
    (task : Task) : (initStep now acc task).1 = dictSet acc.1 task.task_id [] :=
  rfl

theorem riskMap_initStep (now : Int) (acc : Graph × StatusMap × RiskMap)
    (task : Task) :
    (initStep now acc task).2.2
      = dictSet acc.2.2 task.task_id
          (calculate_risk_level now (task.task_deadline.getD "")
            (task.task_status.getD "")).1 :=
  rfl

/-- Every value of the intrinsic risk map is an output of
`calculate_risk_level`, hence never `BLOCKED`. -/
theorem riskMap_foldl_ne_BLOCKED (now : Int) (ts : List Task)
    (acc : Graph × StatusMap × RiskMap)
    (h : ∀ k r, dictGet? acc.2.2 k = some r → r ≠ .BLOCKED) :
    ∀ k r, dictGet? (ts.foldl (initStep now) acc).2.2 k = some r →
      r ≠ .BLOCKED := by
  induction ts generalizing acc with
  | nil => exact h
  | cons t ts ih =>
      rw [List.foldl_cons]
      refine ih _ ?_
      intro k r hr
      rw [riskMap_initStep, dictGet?_dictSet] at hr
      by_cases hk : t.task_id = k
      · rw [if_pos hk] at hr
        cases hr
        exact calculate_risk_level_ne_BLOCKED now _ _
      · rw [if_neg hk] at hr
        exact h k r hr

/-- The intrinsic risk map built by `build_dependency_graph` never contains
`BLOCKED`. -/
theorem initMaps_riskMap_ne_BLOCKED (now : Int) (tasks : List Task) :
    ∀ k r, dictGet? (initMaps now tasks).2.2 k = some r → r ≠ .BLOCKED := by
  refine riskMap_foldl_ne_BLOCKED now tasks ([], [], []) ?_
  intro k r hr
  cases hr

/-- The initialisation loop keeps graph keys duplicate-free. -/
theorem nodup_dictKeys_graph_foldl (now : Int) (ts : List Task)
    (acc : Graph × StatusMap × RiskMap) (h : (dictKeys acc.1).Nodup) :
    (dictKeys ((ts.foldl (initStep now) acc).1)).Nodup := by
  induction ts generalizing acc with
  | nil => exact h
  | cons t ts ih =>
      rw [List.foldl_cons]
      refine ih _ ?_
      rw [fst_initStep]
      exact nodup_dictKeys_dictSet _ _ h

theorem nodup_dictKeys_initMaps (now : Int) (tasks : List Task) :
    (dictKeys (initMaps now tasks).1).Nodup :=
  nodup_dictKeys_graph_foldl now tasks ([], [], []) (by simp [dictKeys_nil])

/-- Appending edges never changes the key list of the graph. -/
theorem dictKeys_addEdges (g : Graph) (t_id : Key) (deps : List String) :
    dictKeys (addEdges g t_id deps) = dictKeys g := by
  induction deps generalizing g with
  | nil => rfl
  | cons d ds ih =>
      show dictKeys (addEdges _ t_id ds) = _
      rw [ih]
      by_cases hc : dictContains g (some d)
      · simp [hc, dictKeys_dictModify]
      · simp [hc]

/-- The dependency-population pass never changes the key list of the
graph. -/
theorem populate_ok_dictKeys {g g' : Graph} {ts : List Task}
    (h : populate g ts = .ok g') : dictKeys g' = dictKeys g := by
  induction ts generalizing g with
  | nil =>
      rw [populate] at h
      cases h
      rfl
  | cons task rest ih =>
      rw [populate] at h
      split at h
      · exact ih h
      · split at h
        · exact ih h
        · rw [ih h, dictKeys_addEdges]
      · split at h
        · exact ih h
        · cases h

/-! ## Blocked-set lemmas -/

theorem mem_addBlocked (acc : List Key) (j k : Key) :
    k ∈ addBlocked acc j ↔ k ∈ acc ∨ k = j := by
  by_cases h : j ∈ acc
  · rw [addBlocked, if_pos h]
    constructor
    · exact Or.inl
    · rintro (h' | rfl)
      · exact h'
      · exact h
  · rw [addBlocked, if_neg h]
    simp

theorem mem_blockedFold (rm : RiskMap) (acc : List Key) (t_id : Key)
    (deps : List String) (k : Key) :
    k ∈ blockedFold rm acc t_id deps
      ↔ k ∈ acc ∨ (k = t_id ∧ ∃ d ∈ deps, qualifies rm d = true) := by
  induction deps generalizing acc with
  | nil => simp [blockedFold]
  | cons d ds ih =>
      rw [blockedFold]
      by_cases hq : qualifies rm d
      · rw [if_pos hq, ih]
        simp only [mem_addBlocked, List.mem_cons, hq]
        constructor
        · rintro ((h | rfl) | ⟨rfl, w, hw, hq'⟩)
          · exact Or.inl h
          · exact Or.inr ⟨rfl, d, Or.inl rfl, hq⟩
          · exact Or.inr ⟨rfl, w, Or.inr hw, hq'⟩
        · rintro (h | ⟨rfl, w, (rfl | hw), hq'⟩)
          · exact Or.inl (Or.inl h)
          · exact Or.inl (Or.inr rfl)
          · exact Or.inr ⟨rfl, w, hw, hq'⟩
      · rw [if_neg hq, ih]
        simp only [List.mem_cons]
        constructor
        · rintro (h | ⟨rfl, w, hw, hq'⟩)
          · exact Or.inl h
          · exact Or.inr ⟨rfl, w, Or.inr hw, hq'⟩
        · rintro (h | ⟨rfl, w, (rfl | hw), hq'⟩)
          · exact Or.inl h
          · exact absurd hq' hq
          · exact Or.inr ⟨rfl, w, hw, hq'⟩

/-- The dependency ids a task declares, exactly as both passes of the source
read them from a (string-valued) `depends_on` field. -/
def declaredDeps (task : Task) : List String :=
  match task.depends_on with
  | some (.str s) => if s = "" then [] else depsOfStr s
  | _ => []

/-- A task declaring no dependency ids contributes no blocked-set
witness. -/
theorem blocked_witness_cons_nil (rm : RiskMap) {task : Task}
    (rest : List Task) (k : Key) (hdd : declaredDeps task = []) :
    (∃ t ∈ task :: rest, t.task_id = k ∧
        ∃ d ∈ declaredDeps t, qualifies rm d = true)
      ↔ ∃ t ∈ rest, t.task_id = k ∧
          ∃ d ∈ declaredDeps t, qualifies rm d = true := by
  constructor
  · rintro ⟨t, ht, htid, w, hw, hq⟩
    rcases List.mem_cons.mp ht with rfl | ht'
    · rw [hdd] at hw
      cases hw
    · exact ⟨t, ht', htid, w, hw, hq⟩
  · rintro ⟨t, ht, htid, w, hw, hq⟩
    exact ⟨t, List.mem_cons_of_mem _ ht, htid, w, hw, hq⟩

/-- Membership in the blocked set computed by the blocked-task pass:
a task id is blocked exactly when some task carrying that id declares a
dependency whose intrinsic risk is CRITICAL or HIGH. -/
theorem computeBlocked_ok_mem {rm : RiskMap} {ts : List Task}
    {acc res : List Key} (h : computeBlocked rm ts acc = .ok res) (k : Key) :
    k ∈ res
      ↔ k ∈ acc ∨ ∃ t ∈ ts, t.task_id = k ∧
          ∃ d ∈ declaredDeps t, qualifies rm d = true := by
  induction ts generalizing acc with
  | nil =>
      rw [computeBlocked] at h
      cases h
      simp
  | cons task rest ih =>
      rw [computeBlocked] at h
      split at h
      · rename_i hdv
        rw [ih h, blocked_witness_cons_nil rm rest k (by simp [declaredDeps, hdv])]
      · rename_i s hdv
        split at h
        · rename_i hs
          rw [ih h, blocked_witness_cons_nil rm rest k
            (by simp [declaredDeps, hdv, hs])]
        · rename_i hs
          have hdd : declaredDeps task = depsOfStr s := by
            simp [declaredDeps, hdv, hs]
          rw [ih h, mem_blockedFold]
          constructor
          · rintro ((h' | ⟨rfl, w, hw, hq⟩) | ⟨t, ht, htid, w, hw, hq⟩)
            · exact Or.inl h'
            · exact Or.inr ⟨task, List.mem_cons_self _ _, rfl, w,
                by rw [hdd]; exact hw, hq⟩
            · exact Or.inr ⟨t, List.mem_cons_of_mem _ ht, htid, w, hw, hq⟩
          · rintro (h' | ⟨t, ht, htid, w, hw, hq⟩)
            · exact Or.inl (Or.inl h')
            · rcases List.mem_cons.mp ht with rfl | ht'
              · refine Or.inl (Or.inr ⟨htid.symm, w, ?_, hq⟩)
                rw [hdd] at hw
                exact hw
              · exact Or.inr ⟨t, ht', htid, w, hw, hq⟩
      · rename_i l hdv
        split at h
        · rename_i hl
          rw [ih h, blocked_witness_cons_nil rm rest k
            (by simp [declaredDeps, hdv])]
        · cases h

/-! ## Bottleneck lemmas -/

theorem mem_bottlenecksOf {g : Graph} {k : Key} (hnd : (dictKeys g).Nodup) :
    k ∈ bottlenecksOf g ↔ ∃ v, dictGet? g k = some v ∧ v.length > 1 := by
  simp only [bottlenecksOf, List.mem_map, List.mem_filter, decide_eq_true_eq]
  constructor
  · rintro ⟨⟨ek, ev⟩, ⟨hmem, hlen⟩, rfl⟩
    exact ⟨ev, dictGet?_eq_some_of_mem hnd hmem, hlen⟩
  · rintro ⟨v, hget, hlen⟩
    exact ⟨(k, v), ⟨mem_of_dictGet?_eq_some hget, hlen⟩, rfl⟩

/-! ## Inversion of the composed analysis -/

theorem build_dependency_graph_ok_inv {now : Int} {tasks : List Task}
    {g : Graph} {s : StatusMap} {r : RiskMap}
    (h : build_dependency_graph now tasks = .ok (g, s, r)) :
    populate (initMaps now tasks).1 tasks = .ok g ∧
      s = (initMaps now tasks).2.1 ∧ r = (initMaps now tasks).2.2 := by
  have hdef : build_dependency_graph now tasks
      = (populate (initMaps now tasks).1 tasks).map
          fun g => (g, (initMaps now tasks).2.1, (initMaps now tasks).2.2) :=
    rfl
  rw [hdef] at h
  cases hp : populate (initMaps now tasks).1 tasks with
  | ok g' =>
      rw [hp] at h
      cases h
      exact ⟨rfl, rfl, rfl⟩
  | error e =>
      rw [hp] at h
      cases h

theorem analyze_cascading_risks_ok_inv {now : Int} {tasks : List Task}
    {bl bn : List Key}
    (h : analyze_cascading_risks now tasks = .ok (bl, bn)) :
    ∃ g, populate (initMaps now tasks).1 tasks = .ok g ∧
      computeBlocked (initMaps now tasks).2.2 tasks [] = .ok bl ∧
      bn = bottlenecksOf g := by
  unfold analyze_cascading_risks at h
  split at h
  · cases h
  · rename_i g s r hb
    split at h
    · cases h
    · rename_i bl' hc
      cases h
      obtain ⟨hp, hs, hr⟩ := build_dependency_graph_ok_inv hb
      exact ⟨g, hp, by rw [← hr]; exact hc, rfl⟩

/-- `qualifies` unpacked: a dependency id qualifies exactly when the risk
map resolves it to an intrinsically CRITICAL or HIGH task. -/
theorem qualifies_iff (rm : RiskMap) (d : String) :
    qualifies rm d = true
      ↔ (dictGet? rm (some d) = some .CRITICAL ∨
         dictGet? rm (some d) = some .HIGH) := by
  unfold qualifies
  split
  · rename_i hget
    simp [hget]
  · rename_i hget
    simp [hget]
  · rename_i hne1 hne2
    cases hget : dictGet? rm (some d) with
    | none => simp
    | some r =>
        cases r <;> simp_all

/-- The classifier on a non-done status and a parsed deadline, written as
the explicit threshold ladder over `daysRemaining`. -/
theorem calculate_risk_level_eq_ladder (now : Int) (dl st : String)
    (d : Int) (hst : isDoneStatus st = false) (hp : parseDate dl = some d) :
    calculate_risk_level now dl st =
      ((if Int.fdiv (d * 86400 - now) 86400 < 0 then .CRITICAL
        else if Int.fdiv (d * 86400 - now) 86400 < 1 then .HIGH
        else if Int.fdiv (d * 86400 - now) 86400 < 3 then .MEDIUM
        else .LOW), Int.fdiv (d * 86400 - now) 86400) := by
  rw [calculate_risk_level, hst, hp]
  simp only [Bool.false_eq_true, if_false]
  split
  · rfl
  · split
    · rfl
    · split
      · rfl
      · rfl

/-! ## Claim theorems -/

/-- C5: for a non-done status and a deadline that parses as `YYYY-MM-DD`,
the tier is assigned from `daysRemaining` by the ordered threshold ladder
`< 0 → CRITICAL`, `< 1 → HIGH`, `< 3 → MEDIUM`, else `LOW`; in particular a
deadline exactly one day in the past (calendar day = today's day − 1)
yields `CRITICAL` with negative `daysRemaining`. -/
theorem calculate_risk_level_threshold_ladder (now : Int) (dl st : String)
    (d : Int) (hst : isDoneStatus st = false) (hp : parseDate dl = some d) :
    calculate_risk_level now dl st =
      ((if Int.fdiv (d * 86400 - now) 86400 < 0 then .CRITICAL
        else if Int.fdiv (d * 86400 - now) 86400 < 1 then .HIGH
        else if Int.fdiv (d * 86400 - now) 86400 < 3 then .MEDIUM
        else .LOW), Int.fdiv (d * 86400 - now) 86400) ∧
    (d = Int.fdiv now 86400 - 1 →
      (calculate_risk_level now dl st).1 = .CRITICAL ∧
      (calculate_risk_level now dl st).2 < 0) := by
  have hcalc := calculate_risk_level_eq_ladder now dl st d hst hp
  refine ⟨hcalc, ?_⟩
  rintro rfl
  have hq : Int.fdiv now 86400 = now / 86400 :=
    Int.fdiv_eq_ediv now (by norm_num)
  have hlt : (Int.fdiv now 86400 - 1) * 86400 - now < 0 := by
    rw [hq]
    omega
  have hdays : Int.fdiv ((Int.fdiv now 86400 - 1) * 86400 - now) 86400 < 0 :=
    Int.fdiv_neg' hlt (by norm_num)
  rw [hcalc]
  simp [hdays]

/-- C6: a status that case-insensitively equals `done` or `completed` yields
`(COMPLETED, 0)` for every deadline string, valid or not — the deadline is
never consulted. -/
theorem calculate_risk_level_done (now : Int) (dl st : String)
    (hst : pyLower st = "done" ∨ pyLower st = "completed") :
    calculate_risk_level now dl st = (.COMPLETED, 0) := by
  have hdone : isDoneStatus st = true := by
    rcases hst with h | h <;> simp [isDoneStatus, h]
  rw [calculate_risk_level, hdone]
  simp

/-- C7: for a status that is not a done-synonym and a deadline string that
does not parse strictly as `YYYY-MM-DD`, the classifier returns the ordinary
value `(UNKNOWN, 0)` (the embedding is total — no error reaches the
caller). -/
theorem calculate_risk_level_unparseable (now : Int) (dl st : String)
    (hst : isDoneStatus st = false) (hp : parseDate dl = none) :
    calculate_risk_level now dl st = (.UNKNOWN, 0) := by
  rw [calculate_risk_level, hst, hp]
  simp

/-- C1: a task id is in the blocked set iff some task carrying that id
declares a direct predecessor id that the intrinsic risk map resolves to
`CRITICAL` or `HIGH`; the intrinsic map is `calculate_risk_level` output
only (never `BLOCKED`), so an overridden predecessor never blocks and
blocking never travels more than the one declared hop. -/
theorem blocked_iff_direct_risky_predecessor (now : Int) (tasks : List Task)
    (blocked bottlenecks : List Key)
    (h : analyze_cascading_risks now tasks = .ok (blocked, bottlenecks))
    (k : Key) :
    (k ∈ blocked ↔ ∃ t ∈ tasks, t.task_id = k ∧
        ∃ d ∈ declaredDeps t,
          (dictGet? (initMaps now tasks).2.2 (some d) = some .CRITICAL ∨
           dictGet? (initMaps now tasks).2.2 (some d) = some .HIGH)) ∧
    (∀ k' r, dictGet? (initMaps now tasks).2.2 k' = some r →
      r ≠ .BLOCKED) := by
  obtain ⟨g, hp, hc, hbn⟩ := analyze_cascading_risks_ok_inv h
  refine ⟨?_, initMaps_riskMap_ne_BLOCKED now tasks⟩
  rw [computeBlocked_ok_mem hc k]
  simp only [List.not_mem_nil, false_or, qualifies_iff]

/-- C8: a task id is in the bottleneck set iff its dependent-list in the
reverse-dependency graph is longer than one — a purely structural, direct
fan-out condition. -/
theorem bottleneck_iff_fanout_gt_one (now : Int) (tasks : List Task)
    (g : Graph) (s : StatusMap) (r : RiskMap) (blocked bottlenecks : List Key)
    (hb : build_dependency_graph now tasks = .ok (g, s, r))
    (ha : analyze_cascading_risks now tasks = .ok (blocked, bottlenecks))
    (k : Key) :
    k ∈ bottlenecks ↔ ∃ deps, dictGet? g k = some deps ∧ deps.length > 1 := by
  obtain ⟨g', hp', hc', hbn'⟩ := analyze_cascading_risks_ok_inv ha
  obtain ⟨hp, hs, hr⟩ := build_dependency_graph_ok_inv hb
  rw [hp] at hp'
  cases hp'
  rw [hbn']
  have hnd := nodup_dictKeys_initMaps now tasks
  rw [← populate_ok_dictKeys hp] at hnd
  exact mem_bottlenecksOf hnd

/-- C4: each entry of the per-task output of the request handler carries the
intrinsic tier unless the task id is in the blocked set and the intrinsic
tier is neither `CRITICAL` nor `COMPLETED`, in which case it carries
`BLOCKED`; intrinsically `CRITICAL` or `COMPLETED` tasks are never relabeled
even when blocked. -/
theorem effective_tier_override (now : Int) (tasks : List Task)
    (blocked bottlenecks : List Key) (out : List AnalyzedTask)
    (ha : analyze_cascading_risks now tasks = .ok (blocked, bottlenecks))
    (hh : handle_tasks now tasks = .ok out)
    (i : Nat) (t : Task) (a : AnalyzedTask)
    (ht : tasks[i]? = some t) (hA : out[i]? = some a) :
    a.risk =
      if t.task_id ∈ blocked ∧
          ¬((calculate_risk_level now (t.task_deadline.getD "")
              (t.task_status.getD "")).1 = .CRITICAL ∨
            (calculate_risk_level now (t.task_deadline.getD "")
              (t.task_status.getD "")).1 = .COMPLETED)
      then .BLOCKED
      else (calculate_risk_level now (t.task_deadline.getD "")
              (t.task_status.getD "")).1 := by
  rw [handle_tasks] at hh
  split at hh
  · cases hh
  · rename_i bl bn heq
    rw [ha] at heq
    cases heq
    cases hh
    rw [List.getElem?_map, ht] at hA
    cases hA
    rfl

/-- Task `A` of the cyclic-pair scenario of the specification. -/
def cyclicTaskA : Task :=
  { task_id := some "A", task_status := some "todo",
    task_deadline := some "2099-01-01", depends_on := some (.str "B") }

/-- Task `B` of the cyclic-pair scenario of the specification. -/
def cyclicTaskB : Task :=
  { task_id := some "B", task_status := some "todo",
    task_deadline := some "2099-01-01", depends_on := some (.str "A") }

/-- C9: on the cyclic pair `A depends_on "B"`, `B depends_on "A"` with a
safe future deadline, the (everywhere-terminating) bounded passes yield a
graph in which each task appears in the other's dependent-list, an empty
blocked set and an empty bottleneck set. -/
theorem cyclic_pair_mutual_dependents_unblocked (now D : Int)
    (hD : parseDate "2099-01-01" = some D)
    (hsafe : 3 ≤ Int.fdiv (D * 86400 - now) 86400) :
    build_dependency_graph now [cyclicTaskA, cyclicTaskB]
      = .ok ([(some "A", [some "B"]), (some "B", [some "A"])],
             [(some "A", "todo"), (some "B", "todo")],
             [(some "A", .LOW), (some "B", .LOW)]) ∧
    analyze_cascading_risks now [cyclicTaskA, cyclicTaskB]
      = .ok ([], []) := by
  have hlow : calculate_risk_level now "2099-01-01" "todo"
      = (.LOW, Int.fdiv (D * 86400 - now) 86400) := by
    rw [calculate_risk_level_eq_ladder now "2099-01-01" "todo" D (by decide) hD]
    generalize hX : Int.fdiv (D * 86400 - now) 86400 = X at hsafe ⊢
    have h0 : ¬X < 0 := by omega
    have h1 : ¬X < 1 := by omega
    have h3 : ¬X < 3 := by omega
    rw [if_neg h0, if_neg h1, if_neg h3]
  have e1 : build_dependency_graph now [cyclicTaskA, cyclicTaskB]
      = .ok ([(some "A", [some "B"]), (some "B", [some "A"])],
             [(some "A", "todo"), (some "B", "todo")],
             [(some "A", (calculate_risk_level now "2099-01-01" "todo").1),
              (some "B", (calculate_risk_level now "2099-01-01" "todo").1)]) :=
    rfl
  have hbuild : build_dependency_graph now [cyclicTaskA, cyclicTaskB]
      = .ok ([(some "A", [some "B"]), (some "B", [some "A"])],
             [(some "A", "todo"), (some "B", "todo")],
             [(some "A", .LOW), (some "B", .LOW)]) := by
    rw [e1, hlow]
  refine ⟨hbuild, ?_⟩
  rw [analyze_cascading_risks, hbuild]
  rfl

/-- Each processed dependency declaration appends one entry to the declared
predecessor's dependent-list (when the predecessor exists), so a dependent
declared `n` times contributes `n` entries, not one. -/
theorem dictGet?_addEdges (g : Graph) (t_id : Key) (deps : List String)
    (kd : String) :
    dictGet? (addEdges g t_id deps) (some kd)
      = (dictGet? g (some kd)).map
          fun l => l ++ List.replicate (deps.count kd) t_id := by
  induction deps generalizing g with
  | nil => cases h : dictGet? g (some kd) <;> simp [addEdges, h]
  | cons d ds ih =>
      rw [show addEdges g t_id (d :: ds)
            = addEdges
                (if dictContains g (some d) then
                  dictModify g (some d) fun l => l ++ [t_id]
                 else g) t_id ds from rfl, ih]
      by_cases hc : dictContains g (some d)
      · rw [if_pos hc, dictGet?_dictModify]
        by_cases hdk : d = kd
        · subst hdk
          rw [if_pos rfl]
          cases hg : dictGet? g (some d) <;>
            simp [hg, List.count_cons_self, List.replicate_succ,
              List.append_assoc]
        · rw [if_neg (fun hs => hdk (Option.some.inj hs))]
          rw [List.count_cons_of_ne (fun hs => hdk hs.symm)]
      · rw [if_neg hc]
        by_cases hdk : d = kd
        · subst hdk
          have hnone : dictGet? g (some d) = none := by
            cases hg : dictGet? g (some d) with
            | none => rfl
            | some v => exact absurd (by simp [dictContains, hg]) hc
          simp [hnone]
        · rw [List.count_cons_of_ne (fun hs => hdk hs.symm)]

/-- C10: a dependency id declared twice (`"A, A"`) appends the dependent
once per declaration: with a single distinct dependent declared twice the
predecessor's dependent-list has length two and the predecessor is
classified as a bottleneck.  The first conjunct is the general per-declaration
counting law of edge insertion. -/
theorem duplicate_declaration_counted_per_declaration (now : Int) :
    (∀ (g : Graph) (t_id : Key) (deps : List String) (kd : String),
        dictGet? (addEdges g t_id deps) (some kd)
          = (dictGet? g (some kd)).map
              fun l => l ++ List.replicate (deps.count kd) t_id) ∧
    build_dependency_graph now
        [{ task_id := some "A", task_status := some "done" },
         { task_id := some "B", task_status := some "done",
           depends_on := some (.str "A, A") }]
      = .ok ([(some "A", [some "B", some "B"]), (some "B", [])],
             [(some "A", "done"), (some "B", "done")],
             [(some "A", .COMPLETED), (some "B", .COMPLETED)]) ∧
    analyze_cascading_risks now
        [{ task_id := some "A", task_status := some "done" },
         { task_id := some "B", task_status := some "done",
           depends_on := some (.str "A, A") }]
      = .ok ([], [some "A"]) :=
  ⟨dictGet?_addEdges, rfl, rfl⟩

/-- C2 fails on the code: with `dependsOn` as the comma-separated string
`"X, Y"` the graph gains the edges `X → Z` and `Y → Z`, but with the
identical ordered list `["X", "Y"]` the source wraps the list as
`[depends_on]` and hashes the list itself against the graph dict, raising
`TypeError` instead of producing the same edges. -/
theorem depends_on_list_vs_string_diverge :
    build_dependency_graph 0
        [{ task_id := some "X" }, { task_id := some "Y" },
         { task_id := some "Z", depends_on := some (.str "X, Y") }]
      = .ok ([(some "X", [some "Z"]), (some "Y", [some "Z"]), (some "Z", [])],
             [(some "X", "todo"), (some "Y", "todo"), (some "Z", "todo")],
             [(some "X", .UNKNOWN), (some "Y", .UNKNOWN),
              (some "Z", .UNKNOWN)]) ∧
    build_dependency_graph 0
        [{ task_id := some "X" }, { task_id := some "Y" },
         { task_id := some "Z", depends_on := some (.list ["X", "Y"]) }]
      = .error .typeError := by
  exact ⟨rfl, rfl⟩

/-- C3 fails on the code: a task whose fields are all missing does degrade
to `UNKNOWN` risk with zero fan-out, but a well-formed task with a
list-valued `depends_on` (the repository's own `test_list_dependencies`
input) makes the whole analysis raise `TypeError`, so a complete result is
not always returned. -/
theorem missing_fields_degrade_but_list_dependency_raises :
    handle_tasks 0 [{ }]
      = .ok [{ id := none, risk := .UNKNOWN, days_remaining := 0,
               is_bottleneck := false }] ∧
    handle_tasks 0
        [{ task_id := some "X", task_status := some "todo",
           task_deadline := some "2030-01-01" },
         { task_id := some "Y", task_status := some "todo",
           task_deadline := some "2030-01-01",
           depends_on := some (.list ["X"]) }]
      = .error .typeError := by
  exact ⟨rfl, rfl⟩

/-! ## Concrete scenario inputs for witnesses -/

/-- Task `A` of the specification's fan-out example: no dependencies,
overdue deadline. -/
def specTaskA : Task :=
  { task_id := some "A", task_status := some "todo",
    task_deadline := some "2020-01-01" }

/-- Task `B` of the specification's fan-out example: depends on `A`. -/
def specTaskB : Task :=
  { task_id := some "B", task_status := some "todo",
    task_deadline := some "2099-01-01", depends_on := some (.str "A") }

/-- Task `C` of the specification's fan-out example: depends on `A`. -/
def specTaskC : Task :=
  { task_id := some "C", task_status := some "todo",
    task_deadline := some "2099-01-01", depends_on := some (.str "A") }

/-- An overdue task depending on itself: intrinsically `CRITICAL` and in the
blocked set at the same time. -/
def selfDepCriticalTask : Task :=
  { task_id := some "A", task_status := some "todo",
    task_deadline := some "2020-01-01", depends_on := some (.str "A") }

/-! ## Witnesses -/

/-- Witness for C1 at the specification's fan-out example, evaluated at
2020-01-02 00:00: `B` is blocked, and indeed declares the predecessor `A`
whose intrinsic tier is `CRITICAL`. -/
theorem blocked_iff_direct_risky_predecessor_witness :
    ((some "B" : Key) ∈ ([some "B", some "C"] : List Key) ↔
      ∃ t ∈ [specTaskA, specTaskB, specTaskC], t.task_id = some "B" ∧
        ∃ d ∈ declaredDeps t,
          (dictGet? (initMaps (18263 * 86400)
              [specTaskA, specTaskB, specTaskC]).2.2 (some d)
                = some .CRITICAL ∨
           dictGet? (initMaps (18263 * 86400)
              [specTaskA, specTaskB, specTaskC]).2.2 (some d)
                = some .HIGH)) ∧
    (∀ k' r, dictGet? (initMaps (18263 * 86400)
        [specTaskA, specTaskB, specTaskC]).2.2 k' = some r →
      r ≠ .BLOCKED) :=
  blocked_iff_direct_risky_predecessor (18263 * 86400)
    [specTaskA, specTaskB, specTaskC] [some "B", some "C"] [some "A"]
    (by decide) (some "B")

/-- Witness for C4: the self-dependent overdue task is in the blocked set
yet keeps its intrinsic `CRITICAL` tier. -/
theorem effective_tier_override_witness :
    (AnalyzedTask.mk (some "A") .CRITICAL (-1) false).risk =
      if (some "A" : Key) ∈ ([some "A"] : List Key) ∧
          ¬((calculate_risk_level (18263 * 86400) "2020-01-01" "todo").1
              = .CRITICAL ∨
            (calculate_risk_level (18263 * 86400) "2020-01-01" "todo").1
              = .COMPLETED)
      then .BLOCKED
      else (calculate_risk_level (18263 * 86400) "2020-01-01" "todo").1 :=
  effective_tier_override (18263 * 86400) [selfDepCriticalTask] [some "A"] []
    [AnalyzedTask.mk (some "A") .CRITICAL (-1) false]
    (by decide) (by decide) 0 selfDepCriticalTask
    (AnalyzedTask.mk (some "A") .CRITICAL (-1) false) (by decide) (by decide)

/-- Witness for C5: at 01:00 on 2020-01-02, the deadline `2020-01-01`
(exactly one day in the past) classifies as `CRITICAL` with
`daysRemaining = -2 < 0`. -/
theorem calculate_risk_level_threshold_ladder_witness :
    calculate_risk_level (18263 * 86400 + 3600) "2020-01-01" "todo"
      = (.CRITICAL, -2) ∧
    ((18262 : Int) = Int.fdiv (18263 * 86400 + 3600) 86400 - 1 →
      (calculate_risk_level (18263 * 86400 + 3600) "2020-01-01" "todo").1
        = .CRITICAL ∧
      (calculate_risk_level (18263 * 86400 + 3600) "2020-01-01" "todo").2
        < 0) :=
  calculate_risk_level_threshold_ladder (18263 * 86400 + 3600) "2020-01-01"
    "todo" 18262 (by decide) (by decide)

/-- Witness for C6: mixed-case `DoNe` with a malformed deadline still yields
`(COMPLETED, 0)`. -/
theorem calculate_risk_level_done_witness :
    calculate_risk_level 0 "not-a-date" "DoNe" = (.COMPLETED, 0) :=
  calculate_risk_level_done 0 "not-a-date" "DoNe" (by decide)

/-- Witness for C7: a slash-formatted date string with a non-done status
yields the ordinary value `(UNKNOWN, 0)`. -/
theorem calculate_risk_level_unparseable_witness :
    calculate_risk_level 0 "01/02/2020" "todo" = (.UNKNOWN, 0) :=
  calculate_risk_level_unparseable 0 "01/02/2020" "todo" (by decide)
    (by decide)

/-- Witness for C8 at the specification's fan-out example: `A` is a
bottleneck and its dependent-list `[B, C]` has length 2 > 1. -/
theorem bottleneck_iff_fanout_gt_one_witness :
    (some "A" : Key) ∈ ([some "A"] : List Key) ↔
      ∃ deps, dictGet?
          [(some "A", [some "B", some "C"]), (some "B", ([] : List Key)),
           (some "C", [])] (some "A") = some deps ∧ deps.length > 1 :=
  bottleneck_iff_fanout_gt_one (18263 * 86400)
    [specTaskA, specTaskB, specTaskC]
    [(some "A", [some "B", some "C"]), (some "B", []), (some "C", [])]
    [(some "A", "todo"), (some "B", "todo"), (some "C", "todo")]
    [(some "A", .CRITICAL), (some "B", .LOW), (some "C", .LOW)]
    [some "B", some "C"] [some "A"] (by decide) (by decide) (some "A")

/-- Witness for C9 at the epoch instant: the cyclic pair builds the mutual
dependent-lists and nothing is blocked or a bottleneck. -/
theorem cyclic_pair_mutual_dependents_unblocked_witness :
    build_dependency_graph 0 [cyclicTaskA, cyclicTaskB]
      = .ok ([(some "A", [some "B"]), (some "B", [some "A"])],
             [(some "A", "todo"), (some "B", "todo")],
             [(some "A", .LOW), (some "B", .LOW)]) ∧
    analyze_cascading_risks 0 [cyclicTaskA, cyclicTaskB]
      = .ok ([], []) :=
  cyclic_pair_mutual_dependents_unblocked 0 47117 (by decide) (by decide)

example : parseDate "2020-01-01" = some 18262 := by decide
example : parseDate "2099-01-01" = some 47117 := by decide
example : parseDate "" = none := by decide
example : parseDate "2020-13-01" = none := by decide
example : parseDate "2020-01-01 " = none := by decide
example : calculate_risk_level (18263 * 86400) "2020-01-01" "todo"
    = (.CRITICAL, -1) := by decide
example : calculate_risk_level 0 "garbage" "DONE" = (.COMPLETED, 0) := by decide
example : calculate_risk_level 0 "garbage" "todo" = (.UNKNOWN, 0) := by decide

example :
    analyze_cascading_risks (18263 * 86400)
      [{ task_id := some "A", task_status := some "todo",
         task_deadline := some "2020-01-01" },
       { task_id := some "B", task_status := some "todo",
         task_deadline := some "2099-01-01", depends_on := some (.str "A") },
       { task_id := some "C", task_status := some "todo",
         task_deadline := some "2099-01-01", depends_on := some (.str "A") }]
    = .ok ([some "B", some "C"], [some "A"]) := by decide

example :
    build_dependency_graph 0
      [{ task_id := some "X" },
       { task_id := some "Y", depends_on := some (.list ["X"]) }]
    = .error .typeError := by decide

example :
    handle_tasks (18263 * 86400)
      [{ task_id := some "A", task_status := some "todo",
         task_deadline := some "2020-01-01" },
       { task_id := some "B", task_status := some "todo",
         task_deadline := some "2099-01-01", depends_on := some (.str "A") }]
    = .ok [⟨some "A", .CRITICAL, -1, false⟩,
           ⟨some "B", .BLOCKED, 28854, false⟩] := by decide

end Guardian
